import Mathlib

/-!
Shallow embedding of the media consistency-check engine of the exifdb
repository (src/exifdb/main.py, with tag registries from src/exifdb/tags.py),
together with proofs about the claims of its specification.

Conventions of the embedding:
* A cached record (`Row` in main.py, backed by a sqlite row) is a structure
  holding the path, the cached mtime string, the decoded exif JSON mapping
  (`row.exif`) and the virtual sql columns (`row.get`, populated by
  refresh_db.py as json_extract of the exif blob).  Both mappings are
  association lists of strings.
* `datetime.strptime` with the fixed formats used by the source is embedded
  by `strptime` below, following CPython Lib/_strptime.py: each directive is
  a small alternation of digit shapes tried in the regex engine's order with
  backtracking, a whitespace in the format matches a run of whitespace, and
  the matched values then go through the `datetime` constructor's range
  checks.  Character classes are the ASCII ones (the source's inputs are
  ASCII tag values and filenames).
* Generators that both yield diagnostics and return a value become functions
  returning a pair of a diagnostic list and an optional value.  `check_media`
  returns a `GenResult`: the list of yielded diagnostics plus an outcome that
  is `.error` when the Python generator would raise while producing the
  stream (an assert failing, or an attribute lookup failing).
* A `Fix`'s side effect is embedded as `FixData.fix`, returning either the
  `TagWrite` handed to the metadata-writing collaborator (exiftool) or an
  `.error` for a failed assertion.  The timezone collaborator (timezonefinder
  plus pytz, reached through `FixOffsetFromGPS.offset_s`) is a parameter
  `tzSecs` giving the UTC offset of the resolved zone in seconds, as
  `offset.total_seconds()` does in the source.
-/

namespace Exifdb

/-! ### Tag registry (src/exifdb/tags.py) -/

namespace Tags

def DateTimeOriginal : String := "DateTimeOriginal"

def DateTimeDigitized : String := "DateTimeDigitized"

def CreateDate : String := "CreateDate"

def OffsetTimeOriginal : String := "OffsetTimeOriginal"

def GPSDateTime : String := "GPSDateTime"

def SubSecDateTimeOriginal : String := "SubSecDateTimeOriginal"

def ContentCreateDate : String := "ContentCreateDate"

def GPSLatitude : String := "GPSLatitude"

def GPSLongitude : String := "GPSLongitude"

end Tags

def DT_TAGS : List String :=
  [Tags.DateTimeOriginal, Tags.DateTimeDigitized, Tags.CreateDate,
   Tags.SubSecDateTimeOriginal, Tags.ContentCreateDate, Tags.GPSDateTime]

def TZ_TAGS : List String := [Tags.OffsetTimeOriginal]

def GPS_TAGS : List String := [Tags.GPSLatitude, Tags.GPSLongitude]

/-- DT_EXTRA of tags.py.  In the source it is a python set; only membership
and the rendering of found values depend on it, and the iteration order of a
set is unspecified, so we fix the order in which tags.py writes it. -/
def DT_EXTRA : List String :=
  ["TimeStamp", "FirstPhotoDate", "LastPhotoDate",
   "DigitalCreationDate", "DigitalCreationTime", "DigitalCreationDateTime",
   "ModifyDate", "SubSecCreateDate", "SubSecModifyDate", "TimeCreated",
   "MetadataDate", "DateCreated", "HistoryWhen", "DateTimeCreated",
   "DateTime", "Date", "TrackCreateDate", "TrackModifyDate",
   "MediaCreateDate", "MediaModifyDate", "CreationDate"]

/-- TZ_EXTRA of tags.py, a python set, order fixed as written. -/
def TZ_EXTRA : List String := ["OffsetTime", "OffsetTimeDigitized", "TimeZone"]

/-! ### Datetimes and CPython strptime over the formats the source uses -/

/-- A naive datetime with microseconds: the value datetime.strptime builds. -/
structure DateTime where
  year : Nat
  month : Nat
  day : Nat
  hour : Nat
  minute : Nat
  second : Nat
  usec : Nat
deriving DecidableEq

def isLeapYear (y : Nat) : Bool :=
  y % 4 == 0 && (y % 100 != 0 || y % 400 == 0)

def daysInMonth (y m : Nat) : Nat :=
  if m == 2 then (if isLeapYear y then 29 else 28)
  else if m == 4 || m == 6 || m == 9 || m == 11 then 30
  else 31

/-- The strptime directives appearing in the formats used by main.py. -/
inductive Dir where
  | Y | mo | dy | hr | mi | sec | frac
  | lit (c : Char)
  | ws
deriving DecidableEq, BEq

def digitVal (c : Char) : Nat := c.toNat - 48

/-- The value of the first `k` characters when they are all (ASCII) digits. -/
def takeDigits (cs : List Char) (k : Nat) : Option Nat :=
  let pre := cs.take k
  if pre.length == k && pre.all Char.isDigit then
    some (pre.foldl (fun a c => a * 10 + digitVal c) 0)
  else none

def twoDigitIn (cs : List Char) (lo hi : Nat) : List (Nat × Nat) :=
  match takeDigits cs 2 with
  | some v => if lo ≤ v && v ≤ hi then [(2, v)] else []
  | none => []

def oneDigitIn (cs : List Char) (lo hi : Nat) : List (Nat × Nat) :=
  match takeDigits cs 1 with
  | some v => if lo ≤ v && v ≤ hi then [(1, v)] else []
  | none => []

/-- The (consumed length, value) alternatives of a directive at a position, in
the preference order of CPython's TimeRE patterns:
`%Y` is `\d\d\d\d`; `%m` is `1[0-2]|0[1-9]|[1-9]`;
`%d` is `3[01]|[12]\d|0[1-9]|[1-9]| [1-9]`; `%H` is `2[0-3]|[0-1]\d|\d`;
`%M` is `[0-5]\d|\d`; `%S` is `6[0-1]|[0-5]\d|\d`; `%f` is `[0-9]{1,6}`
greedy with the value zero-padded on the right to microseconds; a whitespace
in the format is `\s+` greedy. -/
def candidates : Dir → List Char → List (Nat × Nat)
  | .Y, cs =>
    match takeDigits cs 4 with
    | some v => [(4, v)]
    | none => []
  | .mo, cs => twoDigitIn cs 1 12 ++ oneDigitIn cs 1 9
  | .dy, cs =>
    twoDigitIn cs 1 31 ++ oneDigitIn cs 1 9 ++
      (match cs with
       | ' ' :: c :: _ => if c.isDigit && c != '0' then [(2, digitVal c)] else []
       | _ => [])
  | .hr, cs => twoDigitIn cs 0 23 ++ oneDigitIn cs 0 9
  | .mi, cs => twoDigitIn cs 0 59 ++ oneDigitIn cs 0 9
  | .sec, cs => twoDigitIn cs 0 61 ++ oneDigitIn cs 0 9
  | .frac, cs =>
    let r := min (cs.takeWhile Char.isDigit).length 6
    (List.range r).reverse.map
      (fun i => (i + 1, ((takeDigits cs (i + 1)).getD 0) * 10 ^ (6 - (i + 1))))
  | .lit c, cs =>
    match cs with
    | x :: _ => if x == c then [(1, 0)] else []
    | [] => []
  | .ws, cs =>
    let r := (cs.takeWhile Char.isWhitespace).length
    (List.range r).reverse.map (fun i => (i + 1, 0))

/-- Backtracking matcher over a directive list, as the regex engine runs the
joined pattern: at each directive the alternatives are tried in order and the
first one under which the rest of the pattern matches wins; the whole input
must be consumed (strptime raises on "unconverted data"). -/
def runFmt : List Dir → List Char → Option (List (Dir × Nat))
  | [], [] => some []
  | [], _ :: _ => none
  | d :: rest, cs =>
    (candidates d cs).findSome? (fun kv =>
      (runFmt rest (cs.drop kv.1)).map (fun tl => (d, kv.2) :: tl))

def fieldVal (fields : List (Dir × Nat)) (d : Dir) (dflt : Nat) : Nat :=
  match fields.find? (fun p => p.1 == d) with
  | some p => p.2
  | none => dflt

/-- The `datetime` constructor's range checks applied to the matched fields
(defaults as in _strptime: year 1900, month 1, day 1, rest 0). -/
def buildDateTime (fields : List (Dir × Nat)) : Option DateTime :=
  let y := fieldVal fields .Y 1900
  let mo := fieldVal fields .mo 1
  let d := fieldVal fields .dy 1
  let h := fieldVal fields .hr 0
  let mi := fieldVal fields .mi 0
  let s := fieldVal fields .sec 0
  let us := fieldVal fields .frac 0
  if 1 ≤ y && y ≤ 9999 && 1 ≤ mo && mo ≤ 12 && 1 ≤ d && d ≤ daysInMonth y mo
      && h ≤ 23 && mi ≤ 59 && s ≤ 59 && us ≤ 999999 then
    some ⟨y, mo, d, h, mi, s, us⟩
  else none

/-- datetime.strptime over one of the fixed formats below: none exactly when
the python call raises ValueError (either the regex fails or the constructor
rejects the values), which the source always catches. -/
def strptime (fmt : List Dir) (s : String) : Option DateTime :=
  (runFmt fmt s.data).bind buildDateTime

/-- Format string "%Y:%m:%d %H:%M:%S". -/
def fmt_ymd_hms : List Dir :=
  [.Y, .lit ':', .mo, .lit ':', .dy, .ws, .hr, .lit ':', .mi, .lit ':', .sec]

/-- Format string "%Y:%m:%d %H:%M:%SZ". -/
def fmt_ymd_hmsZ : List Dir := fmt_ymd_hms ++ [.lit 'Z']

/-- Format string "%Y%m%d%H%M%S%f". -/
def fmt_compact : List Dir := [.Y, .mo, .dy, .hr, .mi, .sec, .frac]

/-- Zero-pad a natural to a width, as python's {n:02d} and %-formatting do. -/
def padNum (w n : Nat) : String :=
  let s := toString n
  String.mk (List.replicate (w - s.length) '0') ++ s

/-- strftime "%Y:%m:%d %H:%M:%S". -/
def strftime_ymd_hms (d : DateTime) : String :=
  padNum 4 d.year ++ ":" ++ padNum 2 d.month ++ ":" ++ padNum 2 d.day ++ " "
    ++ padNum 2 d.hour ++ ":" ++ padNum 2 d.minute ++ ":" ++ padNum 2 d.second

/-- str(datetime) as python renders it in f-strings: ISO-like with a space,
microseconds shown only when nonzero. -/
def pyStrDatetime (d : DateTime) : String :=
  padNum 4 d.year ++ "-" ++ padNum 2 d.month ++ "-" ++ padNum 2 d.day ++ " "
    ++ padNum 2 d.hour ++ ":" ++ padNum 2 d.minute ++ ":" ++ padNum 2 d.second
    ++ (if d.usec == 0 then "" else "." ++ padNum 6 d.usec)

/-- A lexicographic key: for field-in-range datetimes, key order is python's
datetime order (fieldwise lexicographic). -/
def DateTime.key (d : DateTime) : Nat :=
  (((((d.year * 13 + d.month) * 32 + d.day) * 24 + d.hour) * 60 + d.minute) * 60
      + d.second) * 1000000 + d.usec

def dtLt (a b : DateTime) : Bool := a.key < b.key

/-- Lower end of the sanity window: datetime(1900, 1, 1, 0, 0, 0). -/
def dt_sanity_lo : DateTime := ⟨1900, 1, 1, 0, 0, 0, 0⟩

/-- Upper end of the sanity window: datetime(2100, 1, 1, 0, 0, 0). -/
def dt_sanity_hi : DateTime := ⟨2100, 1, 1, 0, 0, 0, 0⟩

/-! ### Path and filename handling (pathlib operations the source uses) -/

/-- Path(p).name: the component after the last slash (the records store plain
file paths, no trailing slash). -/
def pathName (p : String) : String :=
  String.mk ((splitOnCharAux '/' p.data).getLastD [])
where
  splitOnCharAux (c : Char) : List Char → List (List Char)
    | [] => [[]]
    | x :: xs =>
      let r := splitOnCharAux c xs
      if x == c then [] :: r
      else
        match r with
        | hd :: tl => (x :: hd) :: tl
        | [] => [[x]]

/-- Path(name).suffixes: leading dots stripped, then every dot starts a new
suffix; a name ending in a dot has none. -/
def pySuffixes (name : String) : List String :=
  if name.data.getLast? == some '.' then []
  else
    let stripped := name.data.dropWhile (fun c => c == '.')
    ((splitChars stripped).drop 1).map (fun part => "." ++ String.mk part)
where
  splitChars : List Char → List (List Char)
    | [] => [[]]
    | x :: xs =>
      let r := splitChars xs
      if x == '.' then [] :: r
      else
        match r with
        | hd :: tl => (x :: hd) :: tl
        | [] => [[x]]

/-- str.replace(pat, replacement of the empty string): remove every
left-to-right non-overlapping occurrence of `p :: ps`.  The fuel is spent one
unit per list position; `removeOccs` supplies the list's length, which
suffices since each step consumes at least one element. -/
def removeOccsAux (p : Char) (ps : List Char) : Nat → List Char → List Char
  | _, [] => []
  | 0, l => l
  | fuel + 1, c :: cs =>
    if (p :: ps).isPrefixOf (c :: cs) then removeOccsAux p ps fuel (cs.drop ps.length)
    else c :: removeOccsAux p ps fuel cs

def removeOccs (p : Char) (ps : List Char) (cs : List Char) : List Char :=
  removeOccsAux p ps cs.length cs

/-- main.py check_filename_datetime: `pp.name.replace(''.join(pp.suffixes), '')`. -/
def stripName (filename : String) : String :=
  let sfx := String.join (pySuffixes filename)
  match sfx.data with
  | [] => filename
  | p :: ps => String.mk (removeOccs p ps filename.data)

/-- Python's `\w` or `\s` (ASCII part): the characters the filename pattern's
optional free-text head may hold. -/
def isWordOrSpace (c : Char) : Bool :=
  c.isAlphanum || c == '_' || c.isWhitespace

/-- The regex alternation `\d{9}|\d{6}(_\d{3})?` at a position, as the engine
tries it: nine digits first, else six digits with a greedy optional
underscore-and-three-digits tail (the underscore is character 6, the three
digits characters 7..9). -/
def matchGroup2 (cs : List Char) : Option String :=
  if ((cs.take 9).length == 9) && (cs.take 9).all Char.isDigit then
    some (String.mk (cs.take 9))
  else if ((cs.take 6).length == 6) && (cs.take 6).all Char.isDigit then
    if (cs.get? 6 == some '_') && (((cs.drop 7).take 3).length == 3)
        && ((cs.drop 7).take 3).all Char.isDigit then
      some (String.mk (cs.take 6 ++ '_' :: (cs.drop 7).take 3))
    else some (String.mk (cs.take 6))
  else none

/-- `(\d{8})_(\d{9}|\d{6}(_\d{3})?)` anchored at the given position; nothing
needs to follow (re.match has no end anchor). -/
def matchTimestampAt (cs : List Char) : Option (String × String) :=
  if ((cs.take 8).length == 8) && (cs.take 8).all Char.isDigit then
    if cs.get? 8 == some '_' then
      (matchGroup2 (cs.drop 9)).map (fun g2 => (String.mk (cs.take 8), g2))
    else none
  else none

/-- The optional head `(?:[\w\s]+_)?` taken greedily: with `j+1` characters of
head the underscore sits at index `j+1`; the engine backtracks the `+` one
character at a time, so indices are tried from the longest word-or-space run
down to 1. -/
def scanUnderscore (cs : List Char) : Nat → Option (String × String)
  | 0 => none
  | j + 1 =>
    if cs.get? (j + 1) == some '_' then
      match matchTimestampAt (cs.drop (j + 2)) with
      | some r => some r
      | none => scanUnderscore cs j
    else scanUnderscore cs j

/-- re.match of `(?:[\w\s]+_)?(\d{8})_(\d{9}|\d{6}(_\d{3})?)` on the
suffix-stripped filename, returning (group 1, group 2): the head variant is
preferred (the optional group is greedy), the headless match is the last
resort. -/
def matchFilename (name : String) : Option (String × String) :=
  let cs := name.data
  match scanUnderscore cs (cs.takeWhile isWordOrSpace).length with
  | some r => some r
  | none => matchTimestampAt cs

/-- ts.replace('_', ''). -/
def stripUnderscores (s : String) : String :=
  String.mk (s.data.filter (fun c => c != '_'))

/-! ### The cached record -/

/-- One row of the sqlite cache, as main.py's Row wraps it: `path` and `mtime`
columns, the decoded exif JSON mapping (`row.exif`), and the virtual columns
reached through `row.get` (refresh_db.py generates them as json_extract of
the exif blob for a fixed column list). -/
structure Row where
  path : String
  mtime : String
  exif : List (String × String)
  cols : List (String × String)
deriving DecidableEq

def lookupAssoc (kvs : List (String × String)) (k : String) : Option String :=
  (kvs.find? (fun kv => kv.1 == k)).map (fun kv => kv.2)

/-- row.get(tag): the virtual sql column. -/
def Row.get (row : Row) (tag : String) : Option String :=
  lookupAssoc row.cols tag

/-- Python's repr of a dict of strings, as an f-string renders `{exif}` or
`{notnone}` (values are taken to be quote- and escape-free, which tag values
in this data are). -/
def reprExif (kvs : List (String × String)) : String :=
  "\x7b" ++
    String.intercalate ", "
      (kvs.map (fun kv => "'" ++ kv.1 ++ "': '" ++ kv.2 ++ "'"))
    ++ "\x7d"

/-- re.fullmatch of `\d+.*(N|S|W|E)`: the whole value must be an ASCII digit
first, one of N/S/W/E last, with no newline in between (`\d` and `.` never
match a newline, and any other middle is absorbed by `.*`). -/
def gps_re_fullmatch (s : String) : Bool :=
  match s.data with
  | [] => false
  | c :: rest =>
    match rest.getLast? with
    | none => false
    | some last =>
      c.isDigit && (last == 'N' || last == 'S' || last == 'W' || last == 'E')
        && rest.dropLast.all (fun x => x != '\n')

/-! ### Fixes and the metadata-writing collaborator -/

abbrev Coordinate := String × String

/-- The single tag write a Fix hands to the exiftool wrapper. -/
structure TagWrite where
  path : String
  tag : String
  value : String
  comment : String
deriving DecidableEq

/-- Python's `pat in s` substring test. -/
def hasInfix (pat : List Char) : List Char → Bool
  | [] => pat.isEmpty
  | c :: cs => pat.isPrefixOf (c :: cs) || hasInfix pat cs

/-- exiftool_set_tag of main.py: asserts '.jpg' in path before any backup or
write, then backs the file up and writes the tag plus a UserComment line. -/
def exiftool_set_tag (path tag value comment : String) : Except String TagWrite :=
  if hasInfix ".jpg".data path.data then .ok ⟨path, tag, value, comment⟩
  else .error ("AssertionError: .jpg not in path " ++ path)

/-- The locally-defined Fix objects of check_media, as tagged variants each
carrying its captured context (spec section 9 names the same closed set). -/
inductive FixData where
  | fromFilename (path filename : String) (mime : Option String) (tag : String)
      (hasSubsec : Bool) (dt : DateTime)
  | offsetFromOtherTag (path : String) (mime : Option String) (value : String)
  | offsetFromGPS (path : String) (coordinate : Coordinate) (dt_orig : DateTime)
deriving DecidableEq

/-- f'{sign}{hh:02d}:{mm:02d}' over `hh, mm = divmod(abs(tots), 3600)` as the
source computes it in FixOffsetFromGPS.offset_s.  Note divmod by 3600 leaves
`mm` the remainder in seconds (0..3599), not minutes. -/
def format_offset (tots : Int) : String :=
  let sign := if 0 ≤ tots then "+" else "-"
  let a := tots.natAbs
  sign ++ padNum 2 (a / 3600) ++ ":" ++ padNum 2 (a % 3600)

/-- FixOffsetFromGPS.offset_s before memoization: the timezone collaborator
(geopy point parsing, timezonefinder, pytz localize, utcoffset) abstracted as
`tzSecs` returning total seconds, then formatted by the source's code. -/
def offset_compute (tzSecs : Coordinate → DateTime → Int)
    (c : Coordinate) (d : DateTime) : String :=
  format_offset (tzSecs c d)

/-- strftime with dtfmt of the missing-datetime fallback: '%Y:%m:%d %H:%M:%S'
plus '.%f' when the filename had sub-second digits. -/
def strftime_fix (hasSubsec : Bool) (dt : DateTime) : String :=
  if hasSubsec then strftime_ymd_hms dt ++ "." ++ padNum 6 dt.usec
  else strftime_ymd_hms dt

/-- fix() of each Fix class.  _Fix and FixOffsetFromOtherTag assert
mime == 'image/jpeg' first; FixOffsetFromGPS has no mime assert of its own
and relies on exiftool_set_tag's path assert. -/
def FixData.fix (tzSecs : Coordinate → DateTime → Int) :
    FixData → Except String TagWrite
  | .fromFilename path filename mime tag hasSubsec dt =>
    if mime == some "image/jpeg" then
      exiftool_set_tag path tag (strftime_fix hasSubsec dt)
        ("inferred " ++ tag ++ " from the filename " ++ filename)
    else .error ("AssertionError: mime is not image/jpeg " ++ path)
  | .offsetFromOtherTag path mime value =>
    if mime == some "image/jpeg" then
      exiftool_set_tag path Tags.OffsetTimeOriginal value
        ("inferred " ++ Tags.OffsetTimeOriginal ++ " from OffsetTime")
    else .error ("AssertionError: mime is not image/jpeg " ++ path)
  | .offsetFromGPS path coord dtor =>
    exiftool_set_tag path Tags.OffsetTimeOriginal (offset_compute tzSecs coord dtor)
      ("inferred " ++ Tags.OffsetTimeOriginal ++ " from GPS")

/-! ### The consistency check (check_media and its sub-checks) -/

/-- One yielded element of check_media's stream: an error string alone or
paired with a Fix. -/
inductive CheckRes where
  | plain (err : String)
  | withFix (err : String) (fix : FixData)
deriving DecidableEq

def CheckRes.err : CheckRes → String
  | .plain e => e
  | .withFix e _ => e

def CheckRes.fixOf : CheckRes → Option FixData
  | .plain _ => none
  | .withFix _ f => some f

/-- check_coordinate.  The asserts after the all-present guard are embedded
as `.error`; the guard makes them unreachable (proved below). -/
def check_coordinate (row : Row) : Except String (List String × Option Coordinate) :=
  let coords := GPS_TAGS.map (fun tag => row.get tag)
  if coords.all (fun c => c.isSome) then
    match row.get Tags.GPSLatitude, row.get Tags.GPSLongitude with
    | some lat_s, some lon_s =>
      if gps_re_fullmatch lat_s && gps_re_fullmatch lon_s then
        .ok ([], some (lat_s, lon_s))
      else
        .ok (["bad gps coordinates, likely missing ref " ++ reprExif row.exif], none)
    | _, _ => .error "AssertionError: gps coordinate tag is None"
  else if coords.all (fun c => c.isNone) then
    .ok (["missing GPSPosition"], none)
  else
    .ok (["bad gps coordinate tags " ++ reprExif row.exif], none)

/-- check_gps_datetime: skipped wholesale for the three video containers,
else requires GPSDateTime parsing as '%Y:%m:%d %H:%M:%SZ' (the value is then
marked UTC, which changes no field). -/
def check_gps_datetime (row : Row) (mime : Option String) :
    List String × Option DateTime :=
  if mime == some "video/mp4" || mime == some "video/quicktime"
      || mime == some "video/x-msvideo" then
    ([], none)
  else
    match row.get Tags.GPSDateTime with
    | none => (["missing GPSDateTime"], none)
    | some gps_dt_s =>
      match strptime fmt_ymd_hmsZ gps_dt_s with
      | none => (["bad GPS datetime (likely no timezone) " ++ gps_dt_s], none)
      | some dt => ([], some dt)

/-- check_filename_datetime: strip suffixes, match the timestamp pattern, mark
sub-second precision when the concatenated time digits number nine, pad to
microseconds and parse as '%Y%m%d%H%M%S%f'. -/
def check_filename_datetime (path : String) :
    List String × Option (DateTime × Bool) :=
  let name := stripName (pathName path)
  match matchFilename name with
  | none => (["couldn't extract timestamp from the filename " ++ name], none)
  | some (ds, g2) =>
    let ts := stripUnderscores g2
    let has_subsec := ts.length == 9
    let padded := ts ++ String.mk (List.replicate (12 - ts.length) '0')
    match strptime fmt_compact (ds ++ padded) with
    | none => (["couldn't parse timestamp from the filename " ++ name], none)
    | some dt => ([], some (dt, has_subsec))

/-- check_original_datetime: CreateDate for the two quicktime-family mime
types, DateTimeOriginal otherwise; missing tag is silent, an unparsable value
or one outside the strict 1900..2100 window is a diagnostic. -/
def check_original_datetime (row : Row) (mime : Option String) :
    List String × Option DateTime :=
  let dt_orig_s :=
    if mime == some "video/mp4" then row.get Tags.CreateDate
    else if mime == some "video/quicktime" then row.get Tags.CreateDate
    else row.get Tags.DateTimeOriginal
  match dt_orig_s with
  | none => ([], none)
  | some s =>
    match strptime fmt_ymd_hms s with
    | none => (["couldn't parse " ++ s], none)
    | some res =>
      if dtLt dt_sanity_lo res && dtLt res dt_sanity_hi then ([], some res)
      else (["bad date " ++ s], none)

/-- The inline missing-original-datetime fallback of check_media (runs only
when check_original_datetime returned none). -/
def fallback_datetime (row : Row) (mime : Option String) (path filename : String)
    (filename_datetime_res : Option (DateTime × Bool)) : List CheckRes :=
  let dt_tags : List (String × Option String) :=
    DT_TAGS.map (fun t => (t, row.get t))
      ++ DT_EXTRA.map (fun t => (t, lookupAssoc row.exif t))
  let notnone := dt_tags.filterMap (fun kv => kv.2.map (fun v => (kv.1, v)))
  let xxerr := "missing created datetime"
    ++ (if notnone.length > 0
        then ", also found some datetime-like tags " ++ reprExif notnone else "")
  match filename_datetime_res with
  | some (filename_datetime, has_subsec) =>
    let tag := if has_subsec then Tags.SubSecDateTimeOriginal else Tags.DateTimeOriginal
    [.withFix
      (xxerr ++ ". Has filename timestamp " ++ pyStrDatetime filename_datetime
        ++ ", use --fix to set it")
      (.fromFilename path filename mime tag has_subsec filename_datetime)]
  | none => [.plain xxerr]

/-- check_tz_offset.  When the canonical tag is absent and any secondary
timezone-like tag is found, the source's next statement reads
`Tags.OffsetTime` — an attribute tags.py does not define ('OffsetTime' is
only a string in TZ_EXTRA) — so the generator raises AttributeError there;
this is embedded as the `.error` branch. -/
def check_tz_offset (row : Row) (_mime : Option String) (path : String)
    (coordinate : Option Coordinate) (dt_orig_res : Option DateTime) :
    Except String (List CheckRes × Option String) :=
  match row.get Tags.OffsetTimeOriginal with
  | some dt_offset_s => .ok ([], some dt_offset_s)
  | none =>
    let tz_tags : List (String × Option String) :=
      TZ_TAGS.map (fun t => (t, row.get t))
        ++ TZ_EXTRA.map (fun t => (t, lookupAssoc row.exif t))
    let notnone := tz_tags.filterMap (fun kv => kv.2.map (fun v => (kv.1, v)))
    let pre := "missing " ++ Tags.OffsetTimeOriginal ++ ": "
    if notnone.length > 0 then
      .error "AttributeError: type object Tags has no attribute OffsetTime"
    else
      match coordinate with
      | none =>
        .ok ([.plain (pre ++ "no GPS coordinates, so can't infer out the offset")], none)
      | some coord =>
        match dt_orig_res with
        | none =>
          .ok ([.plain (pre
            ++ "has GPS coordinates, but no local time, so can't infer the offset")], none)
        | some dtor =>
          .ok ([.withFix
            (pre ++ "has GPS coordinates and local datetime " ++ pyStrDatetime dtor
              ++ ". Use --fix to set the offset")
            (.offsetFromGPS path coord dtor)], none)

def supports_tz_offset (mime : Option String) : Bool :=
  !(mime == some "video/mp4" || mime == some "video/quicktime"
    || mime == some "video/x-msvideo")

/-- What consuming the whole generator observes: the yields produced, and
whether the generator finished normally or raised. -/
structure GenResult where
  yields : List CheckRes
  outcome : Except String Unit

/-- check_media: the early mtime return, then the sub-checks in source order.
detect_datetimeish_tags only logs process-wide warnings (never yields, never
raises), so it contributes nothing here. -/
def check_media (row : Row) (current_mtime : String) : GenResult :=
  let path := row.path
  let filename := pathName path
  if current_mtime != row.mtime then
    { yields := [.plain ("file mtime " ++ current_mtime ++ " and db mtime "
        ++ row.mtime ++ " are different! please update the cache")],
      outcome := .ok () }
  else
    let mime := row.get "MIMEType"
    match check_coordinate row with
    | .error e => { yields := [], outcome := .error e }
    | .ok (cdiags, coordinate) =>
      let gres := check_gps_datetime row mime
      let fres := check_filename_datetime path
      let ores := check_original_datetime row mime
      let fb := if ores.2.isNone
        then fallback_datetime row mime path filename fres.2 else []
      let base := cdiags.map .plain ++ gres.1.map .plain ++ fres.1.map .plain
        ++ ores.1.map .plain ++ fb
      if supports_tz_offset mime then
        match check_tz_offset row mime path coordinate ores.2 with
        | .error e => { yields := base, outcome := .error e }
        | .ok (tzdiags, _) => { yields := base ++ tzdiags, outcome := .ok () }
      else
        { yields := base, outcome := .ok () }

/-! ### The reconciliation driver's per-record loop (check_all_media) -/

/-- The per-record accumulation of check_all_media: the tally increments made
for the record's parent directory, the retained (err, fixer) pair, and the
errors handed to the logger, in order. -/
structure RowState where
  tally : Nat
  row_fixer : Option (String × FixData)
  logged : List String
deriving DecidableEq

/-- One iteration of `for check_res in check_media(row=xrow)`: an ignored
error is skipped whole; otherwise the fixer is kept only when none is held
yet, then the tally increments and the error is logged. -/
def process_diag (ignore : String → Bool) (st : RowState) (cr : CheckRes) : RowState :=
  if ignore cr.err then st
  else
    { tally := st.tally + 1,
      row_fixer :=
        match st.row_fixer, cr.fixOf with
        | none, some f => some (cr.err, f)
        | rf, _ => rf,
      logged := st.logged ++ [cr.err] }

/-- The whole per-record loop, starting from a fresh directory entry and no
retained fixer. -/
def process_row (ignore : String → Bool) (diags : List CheckRes) : RowState :=
  diags.foldl (process_diag ignore) ⟨0, none, []⟩

/-- Specification-side description of the retained fixer: the first
non-ignored Fix-bearing diagnostic, with its error text. -/
def firstFixer (ignore : String → Bool) (diags : List CheckRes) :
    Option (String × FixData) :=
  (diags.filter (fun d => !ignore d.err)).findSome?
    (fun d => d.fixOf.map (fun f => (d.err, f)))

/-! ### Memoization of FixOffsetFromGPS.offset_s (functools.cached_property) -/

/-- The mutable face of one FixOffsetFromGPS instance: the cached_property
slot, plus a count of how many times the expensive computation ran. -/
structure MemoState where
  cache : Option String
  computes : Nat
deriving DecidableEq

/-- One access to `self.offset_s`: cached_property returns the stored value
when present, else computes it once and stores it. -/
def offset_s_read (tzSecs : Coordinate → DateTime → Int) (c : Coordinate)
    (d : DateTime) (st : MemoState) : String × MemoState :=
  match st.cache with
  | some v => (v, st)
  | none =>
    let v := offset_compute tzSecs c d
    (v, ⟨some v, st.computes + 1⟩)

/-- FixOffsetFromGPS.description: f'Set {target} to {self.offset_s}?' — one
offset_s access.  FixOffsetFromGPS.fix also reads self.offset_s for the
written value, going through the same cached_property slot. -/
def description_read (tzSecs : Coordinate → DateTime → Int) (c : Coordinate)
    (d : DateTime) (st : MemoState) : String × MemoState :=
  let r := offset_s_read tzSecs c d st
  ("Set " ++ Tags.OffsetTimeOriginal ++ " to " ++ r.1 ++ "?", r.2)

/-- `n` successive offset_s accesses on one instance (each description or fix
invocation performs exactly one), collecting the value each returned. -/
def read_many (tzSecs : Coordinate → DateTime → Int) (c : Coordinate)
    (d : DateTime) : Nat → MemoState → List String × MemoState
  | 0, st => ([], st)
  | n + 1, st =>
    let r := offset_s_read tzSecs c d st
    let rest := read_many tzSecs c d n r.2
    (r.1 :: rest.1, rest.2)

/-! ### Claim-side case analyses (written from the specification's words) -/

/-- C4's case analysis of coordinate extraction, as the claim states it. -/
def coordinate_claim_cases (row : Row) : List String × Option Coordinate :=
  match row.get Tags.GPSLatitude, row.get Tags.GPSLongitude with
  | some la, some lo =>
    if gps_re_fullmatch la && gps_re_fullmatch lo then ([], some (la, lo))
    else (["bad gps coordinates, likely missing ref " ++ reprExif row.exif], none)
  | none, none => (["missing GPSPosition"], none)
  | _, _ => (["bad gps coordinate tags " ++ reprExif row.exif], none)

/-- C5's description of original-datetime resolution, as the claim states it:
CreateDate for the two quicktime-family mime types, DateTimeOriginal for
every other; missing tag silent; parse failure and out-of-window values are
diagnostics. -/
def original_datetime_claim_cases (row : Row) (mime : Option String) :
    List String × Option DateTime :=
  let tag := if mime == some "video/mp4" || mime == some "video/quicktime"
             then Tags.CreateDate else Tags.DateTimeOriginal
  match row.get tag with
  | none => ([], none)
  | some s =>
    match strptime fmt_ymd_hms s with
    | none => (["couldn't parse " ++ s], none)
    | some d =>
      if dtLt dt_sanity_lo d && dtLt d dt_sanity_hi then ([], some d)
      else (["bad date " ++ s], none)

/-! ### Helper lemmas -/

/-- The asserts inside check_coordinate sit under the all-present guard and
cannot fire: the sub-check never raises. -/
theorem check_coordinate_never_raises (row : Row) :
    ∃ p, check_coordinate row = .ok p := by
  unfold check_coordinate
  split
  · dsimp only
    split
    · split <;> exact ⟨_, rfl⟩
    · split <;> exact ⟨_, rfl⟩
  · rename_i hno
    cases hla : row.get Tags.GPSLatitude with
    | some la =>
      cases hlo : row.get Tags.GPSLongitude with
      | some lo => exact (hno la lo hla hlo).elim
      | none => simp [GPS_TAGS, hla, hlo]
    | none =>
      cases hlo : row.get Tags.GPSLongitude <;> simp [GPS_TAGS, hla, hlo]

/-- The first option that is present (python's `x if x is not None else y`
shape used to state the fold below). -/
def optFirst {α : Type} (a b : Option α) : Option α :=
  match a with
  | some x => some x
  | none => b

theorem optFirst_none_right {α : Type} (a : Option α) : optFirst a none = a := by
  cases a <;> rfl

theorem optFirst_assoc {α : Type} (a b c : Option α) :
    optFirst (optFirst a b) c = optFirst a (optFirst b c) := by
  cases a <;> cases b <;> rfl

theorem process_diag_row_fixer_eq (ignore : String → Bool) (st : RowState)
    (d : CheckRes) (h : ignore d.err = false) :
    process_diag ignore st d =
      { tally := st.tally + 1,
        row_fixer := optFirst st.row_fixer (d.fixOf.map (fun f => (d.err, f))),
        logged := st.logged ++ [d.err] } := by
  unfold process_diag
  rw [if_neg (by simp [h])]
  cases hrf : st.row_fixer <;> cases hfx : d.fixOf <;> simp [optFirst]

/-- The per-record fold, characterised: the tally counts the non-ignored
diagnostics, the retained fixer is the already-held one or else the first
non-ignored Fix-bearing one, and the log lists the non-ignored errors in
order. -/
theorem foldl_process_diag (ignore : String → Bool) (diags : List CheckRes)
    (st : RowState) :
    diags.foldl (process_diag ignore) st =
      { tally := st.tally + (diags.filter (fun d => !ignore d.err)).length,
        row_fixer := optFirst st.row_fixer (firstFixer ignore diags),
        logged := st.logged
          ++ (diags.filter (fun d => !ignore d.err)).map CheckRes.err } := by
  induction diags generalizing st with
  | nil =>
    simp [firstFixer, optFirst_none_right]
  | cons d rest ih =>
    rw [List.foldl_cons, ih]
    by_cases h : ignore d.err = true
    · have hfil : (d :: rest).filter (fun x => !ignore x.err)
          = rest.filter (fun x => !ignore x.err) := by
        simp [List.filter_cons, h]
      have hff : firstFixer ignore (d :: rest) = firstFixer ignore rest := by
        unfold firstFixer
        rw [hfil]
      have hpd : process_diag ignore st d = st := by
        unfold process_diag
        rw [if_pos h]
      rw [hpd, hfil, hff]
    · have h' : ignore d.err = false := by
        cases hv : ignore d.err
        · rfl
        · exact absurd hv h
      have hfil : (d :: rest).filter (fun x => !ignore x.err)
          = d :: rest.filter (fun x => !ignore x.err) := by
        simp [List.filter_cons, h']
      have hff : firstFixer ignore (d :: rest)
          = optFirst (d.fixOf.map (fun f => (d.err, f))) (firstFixer ignore rest) := by
        unfold firstFixer
        rw [hfil, List.findSome?_cons]
        cases hfx : d.fixOf <;> simp [hfx, optFirst]
      rw [process_diag_row_fixer_eq ignore st d h', hfil, hff]
      simp only [RowState.mk.injEq, List.length_cons, List.map_cons]
      refine ⟨by omega, by rw [optFirst_assoc], by simp [List.append_assoc]⟩

/-- Caching half of cached_property: once the slot holds a value, every later
access returns it unchanged and nothing recomputes. -/
theorem read_many_cached (tzSecs : Coordinate → DateTime → Int) (c : Coordinate)
    (d : DateTime) (n : Nat) (v : String) (k : Nat) :
    read_many tzSecs c d n ⟨some v, k⟩ = (List.replicate n v, ⟨some v, k⟩) := by
  induction n with
  | zero => rfl
  | succ m ih => simp [read_many, offset_s_read, ih, List.replicate]

/-! ### The claims -/

/-- C1: a record whose live mtime string differs from the cached one yields
exactly one bare diagnostic, the generator then finishes normally, and no
other sub-check contributes anything. -/
theorem stale_mtime_single_diag (row : Row) (cm : String) (h : cm ≠ row.mtime) :
    check_media row cm =
      { yields := [.plain ("file mtime " ++ cm ++ " and db mtime " ++ row.mtime
          ++ " are different! please update the cache")],
        outcome := .ok () } := by
  have hb : (cm != row.mtime) = true := by simpa [bne_iff_ne] using h
  unfold check_media
  rw [if_pos hb]

/-- C1's witness: the theorem applied to a concrete stale record. -/
theorem stale_mtime_single_diag_witness :
    check_media ⟨"/photos/a.jpg", "2024-01-01T00:00:00+00:00", [], []⟩
        "2024-01-02T00:00:00+00:00"
      = { yields := [.plain ("file mtime 2024-01-02T00:00:00+00:00 and db mtime "
            ++ "2024-01-01T00:00:00+00:00 are different! please update the cache")],
          outcome := .ok () } :=
  stale_mtime_single_diag _ _ (by decide)

/-- C4: coordinate extraction performs exactly the claim's four-way case
analysis on the GPSLatitude/GPSLongitude pair (and never raises). -/
theorem check_coordinate_cases (row : Row) :
    check_coordinate row = .ok (coordinate_claim_cases row) := by
  unfold check_coordinate coordinate_claim_cases
  cases hla : row.get Tags.GPSLatitude with
  | some la =>
    cases hlo : row.get Tags.GPSLongitude with
    | some lo =>
      simp only [GPS_TAGS, List.map_cons, List.map_nil, hla, hlo]
      simp only [List.all_cons, List.all_nil, Option.isSome_some, Bool.and_self, if_true,
        Bool.and_true]
      split <;> rfl
    | none => simp [GPS_TAGS, hla, hlo]
  | none => cases hlo : row.get Tags.GPSLongitude <;> simp [GPS_TAGS, hla, hlo]

/-- C5: original-datetime resolution reads CreateDate for the two
quicktime-family mime types and DateTimeOriginal otherwise, is silent on a
missing tag, and diagnoses unparsable values and values outside the strict
1900..2100 window, exactly as the claim's case analysis states. -/
theorem check_original_datetime_cases (row : Row) (mime : Option String) :
    check_original_datetime row mime = original_datetime_claim_cases row mime := by
  unfold check_original_datetime original_datetime_claim_cases
  by_cases h4 : (mime == some "video/mp4") = true
  · simp [h4]
  · by_cases hqt : (mime == some "video/quicktime") = true <;>
      simp [h4, hqt]

/-- C6: per record the driver's loop retains exactly the Fix of the first
non-ignored Fix-bearing diagnostic of check_media's stream, while every
non-ignored diagnostic (Fix-bearing or not, before or after) still counts in
the directory tally and is logged. -/
theorem driver_retains_first_fix (ignore : String → Bool) (row : Row) (cm : String) :
    (process_row ignore (check_media row cm).yields).row_fixer
      = firstFixer ignore (check_media row cm).yields
    ∧ (process_row ignore (check_media row cm).yields).tally
      = ((check_media row cm).yields.filter (fun d => !ignore d.err)).length
    ∧ (process_row ignore (check_media row cm).yields).logged
      = ((check_media row cm).yields.filter (fun d => !ignore d.err)).map CheckRes.err := by
  unfold process_row
  rw [foldl_process_diag]
  exact ⟨rfl, by simp, rfl⟩

/-- C10: an ignored diagnostic contributes nothing at all to the per-record
state — no tally increment, no log line, no collected Fix — and when it was
the first Fix-bearing one, the retained Fix comes from the first non-ignored
Fix-bearing diagnostic of the remaining stream. -/
theorem ignored_diag_contributes_nothing (ignore : String → Bool)
    (pre post : List CheckRes) (d : CheckRes) (h : ignore d.err = true) :
    process_row ignore (pre ++ d :: post) = process_row ignore (pre ++ post)
    ∧ (process_row ignore (pre ++ d :: post)).row_fixer
        = firstFixer ignore (pre ++ post) := by
  have h1 : process_row ignore (pre ++ d :: post) = process_row ignore (pre ++ post) := by
    unfold process_row
    rw [List.foldl_append, List.foldl_append, List.foldl_cons]
    have hd : process_diag ignore (pre.foldl (process_diag ignore) ⟨0, none, []⟩) d
        = pre.foldl (process_diag ignore) ⟨0, none, []⟩ := by
      unfold process_diag
      rw [if_pos h]
    rw [hd]
  refine ⟨h1, ?_⟩
  rw [h1]
  show (process_row ignore (pre ++ post)).row_fixer = _
  unfold process_row
  rw [foldl_process_diag]
  rfl

/-- C10's witness: a concrete ignored Fix-bearing diagnostic followed by a
non-ignored Fix-bearing one; the second one's Fix is the one retained. -/
theorem ignored_diag_contributes_nothing_witness :
    ((fun e => e == "skip") (CheckRes.withFix "skip"
        (.offsetFromGPS "/a/b.jpg" ("1 N", "2 E") ⟨2020, 1, 1, 0, 0, 0, 0⟩)).err = true)
    ∧ (process_row (fun e => e == "skip")
          ([] ++ CheckRes.withFix "skip"
              (.offsetFromGPS "/a/b.jpg" ("1 N", "2 E") ⟨2020, 1, 1, 0, 0, 0, 0⟩)
            :: [CheckRes.withFix "keep"
              (.fromFilename "/a/b.jpg" "b.jpg" none Tags.DateTimeOriginal false
                ⟨2021, 2, 3, 4, 5, 6, 0⟩)])
        = process_row (fun e => e == "skip")
            ([] ++ [CheckRes.withFix "keep"
              (.fromFilename "/a/b.jpg" "b.jpg" none Tags.DateTimeOriginal false
                ⟨2021, 2, 3, 4, 5, 6, 0⟩)])
      ∧ (process_row (fun e => e == "skip")
          ([] ++ CheckRes.withFix "skip"
              (.offsetFromGPS "/a/b.jpg" ("1 N", "2 E") ⟨2020, 1, 1, 0, 0, 0, 0⟩)
            :: [CheckRes.withFix "keep"
              (.fromFilename "/a/b.jpg" "b.jpg" none Tags.DateTimeOriginal false
                ⟨2021, 2, 3, 4, 5, 6, 0⟩)])).row_fixer
        = firstFixer (fun e => e == "skip")
            ([] ++ [CheckRes.withFix "keep"
              (.fromFilename "/a/b.jpg" "b.jpg" none Tags.DateTimeOriginal false
                ⟨2021, 2, 3, 4, 5, 6, 0⟩)])) :=
  ⟨by decide, ignored_diag_contributes_nothing _ [] _ _ (by decide)⟩

/-- C8: for a fixed coordinate and local datetime, every offset_s access on
one FixOffsetFromGPS instance returns the same string, the expensive
computation runs at most once however many accesses happen (none when never
accessed), and the description renders that same memoized offset on every
read. -/
theorem offset_memoized_deterministic (tzSecs : Coordinate → DateTime → Int)
    (c : Coordinate) (d : DateTime) (n : Nat) :
    (read_many tzSecs c d n ⟨none, 0⟩).1
      = List.replicate n (offset_compute tzSecs c d)
    ∧ (read_many tzSecs c d n ⟨none, 0⟩).2.computes = min n 1
    ∧ (description_read tzSecs c d (read_many tzSecs c d n ⟨none, 0⟩).2).1
      = "Set " ++ Tags.OffsetTimeOriginal ++ " to " ++ offset_compute tzSecs c d ++ "?" := by
  cases n with
  | zero => simp [read_many, description_read, offset_s_read]
  | succ m =>
    have h := read_many_cached tzSecs c d m (offset_compute tzSecs c d) 1
    simp [read_many, offset_s_read, h, description_read, List.replicate]

/-- C3 (counter-evidence): FixOffsetFromGPS formats the offset with
`divmod(abs(total_seconds), 3600)`, so the part after the colon is the
remainder in seconds, not minutes: a zone at UTC+05:30 (total 19800 seconds,
e.g. Asia/Kolkata) is written as '+05:1800' instead of a ±HH:MM string, and
that malformed value is what fix() hands to exiftool. -/
theorem offset_format_seconds_bug :
    format_offset 19800 = "+05:1800"
    ∧ ¬ format_offset 19800 = "+05:30"
    ∧ (FixData.offsetFromGPS "/photos/a.jpg" ("12.967 N", "77.587 E")
          ⟨2020, 1, 1, 12, 0, 0, 0⟩).fix (fun _ _ => 19800)
        = .ok ⟨"/photos/a.jpg", Tags.OffsetTimeOriginal, "+05:1800",
            "inferred " ++ Tags.OffsetTimeOriginal ++ " from GPS"⟩ :=
  ⟨rfl, by decide, rfl⟩

theorem digit_ne_underscore {c : Char} (hc : c.isDigit = true) : (c != '_') = true := by
  cases hbe : c == '_'
  · simp [bne, hbe]
  · rw [eq_of_beq hbe] at hc
    exact absurd hc (by decide)

theorem filter_ne_underscore_of_digits (cs : List Char)
    (h : cs.all Char.isDigit = true) :
    cs.filter (fun c => c != '_') = cs :=
  List.filter_eq_self.mpr (fun c hc => digit_ne_underscore (List.all_eq_true.mp h c hc))

/-- Whatever the alternation `\d{9}|\d{6}(_\d{3})?` matched, the digits of
group 2 with the optional underscore removed number 6 or 9. -/
theorem matchGroup2_len (cs : List Char) (g2 : String)
    (h : matchGroup2 cs = some g2) :
    (stripUnderscores g2).length = 6 ∨ (stripUnderscores g2).length = 9 := by
  unfold matchGroup2 at h
  by_cases h9 : (((cs.take 9).length == 9) && (cs.take 9).all Char.isDigit) = true
  · rw [if_pos h9] at h
    rw [Bool.and_eq_true] at h9
    obtain rfl : String.mk (cs.take 9) = g2 := Option.some.inj h
    refine Or.inr ?_
    show (((cs.take 9).filter (fun c => c != '_'))).length = 9
    rw [filter_ne_underscore_of_digits _ h9.2]
    exact eq_of_beq h9.1
  · rw [if_neg h9] at h
    by_cases h6 : (((cs.take 6).length == 6) && (cs.take 6).all Char.isDigit) = true
    · rw [if_pos h6] at h
      rw [Bool.and_eq_true] at h6
      by_cases h3 : ((cs.get? 6 == some '_') && (((cs.drop 7).take 3).length == 3)
          && ((cs.drop 7).take 3).all Char.isDigit) = true
      · rw [if_pos h3] at h
        rw [Bool.and_eq_true, Bool.and_eq_true] at h3
        obtain rfl : String.mk (cs.take 6 ++ '_' :: (cs.drop 7).take 3) = g2 :=
          Option.some.inj h
        refine Or.inr ?_
        show ((cs.take 6 ++ '_' :: (cs.drop 7).take 3).filter (fun c => c != '_')).length = 9
        rw [List.filter_append, List.filter_cons]
        simp only [bne_self_eq_false, Bool.false_eq_true, if_false]
        rw [filter_ne_underscore_of_digits _ h6.2, filter_ne_underscore_of_digits _ h3.2]
        rw [List.length_append]
        rw [eq_of_beq h6.1, eq_of_beq h3.1.2]
      · rw [if_neg h3] at h
        obtain rfl : String.mk (cs.take 6) = g2 := Option.some.inj h
        refine Or.inl ?_
        show (((cs.take 6).filter (fun c => c != '_'))).length = 6
        rw [filter_ne_underscore_of_digits _ h6.2]
        exact eq_of_beq h6.1
    · rw [if_neg h6] at h
      exact absurd h (by simp)

theorem matchTimestampAt_g2 (cs : List Char) (ds g2 : String)
    (h : matchTimestampAt cs = some (ds, g2)) :
    ∃ rest, matchGroup2 rest = some g2 := by
  unfold matchTimestampAt at h
  by_cases h8 : (((cs.take 8).length == 8) && (cs.take 8).all Char.isDigit) = true
  · rw [if_pos h8] at h
    by_cases hu : (cs.get? 8 == some '_') = true
    · rw [if_pos hu] at h
      obtain ⟨g2x, hg2, heq⟩ := Option.map_eq_some'.mp h
      cases heq
      exact ⟨cs.drop 9, hg2⟩
    · rw [if_neg hu] at h
      exact absurd h (by simp)
  · rw [if_neg h8] at h
    exact absurd h (by simp)

theorem scanUnderscore_g2 (cs : List Char) (j : Nat) (ds g2 : String)
    (h : scanUnderscore cs j = some (ds, g2)) :
    ∃ rest, matchGroup2 rest = some g2 := by
  induction j with
  | zero => exact absurd h (by simp [scanUnderscore])
  | succ k ih =>
    unfold scanUnderscore at h
    by_cases hu : (cs.get? (k + 1) == some '_') = true
    · rw [if_pos hu] at h
      rcases hts : matchTimestampAt (cs.drop (k + 2)) with _ | r
      · rw [hts] at h
        exact ih h
      · rw [hts] at h
        obtain rfl : r = (ds, g2) := Option.some.inj h
        exact matchTimestampAt_g2 _ _ _ hts
    · rw [if_neg hu] at h
      exact ih h

/-- Any successful filename match produced its group 2 through the
alternation. -/
theorem matchFilename_g2 (name : String) (ds g2 : String)
    (h : matchFilename name = some (ds, g2)) :
    ∃ rest, matchGroup2 rest = some g2 := by
  simp only [matchFilename] at h
  rcases hscan : scanUnderscore name.data
      ((name.data.takeWhile isWordOrSpace).length) with _ | r
  · rw [hscan] at h
    exact matchTimestampAt_g2 _ _ _ h
  · rw [hscan] at h
    obtain rfl : r = (ds, g2) := Option.some.inj h
    exact scanUnderscore_g2 _ _ _ _ hscan

/-- C2: with a fresh mtime, no resolved original datetime, and a filename
timestamp (dt, b), check_media yields a diagnostic+Fix pair whose Fix targets
SubSecDateTimeOriginal when b is set and DateTimeOriginal otherwise; applying
it on a jpeg record hands exiftool the filename-derived value formatted with
fractional seconds exactly when b is set, and applying it on any other mime
type fails the assert instead. -/
theorem missing_datetime_fallback_fix (row : Row) (cm : String)
    (tzSecs : Coordinate → DateTime → Int) (dt : DateTime) (b : Bool)
    (fdiags : List String)
    (hm : cm = row.mtime)
    (ho : (check_original_datetime row (row.get "MIMEType")).2 = none)
    (hf : check_filename_datetime row.path = (fdiags, some (dt, b))) :
    ∃ err,
      CheckRes.withFix err
        (.fromFilename row.path (pathName row.path) (row.get "MIMEType")
          (if b then Tags.SubSecDateTimeOriginal else Tags.DateTimeOriginal) b dt)
        ∈ (check_media row cm).yields
      ∧ (row.get "MIMEType" = some "image/jpeg" →
          FixData.fix tzSecs
            (.fromFilename row.path (pathName row.path) (row.get "MIMEType")
              (if b then Tags.SubSecDateTimeOriginal else Tags.DateTimeOriginal) b dt)
          = exiftool_set_tag row.path
              (if b then Tags.SubSecDateTimeOriginal else Tags.DateTimeOriginal)
              (strftime_fix b dt)
              ("inferred "
                ++ (if b then Tags.SubSecDateTimeOriginal else Tags.DateTimeOriginal)
                ++ " from the filename " ++ pathName row.path))
      ∧ (¬ row.get "MIMEType" = some "image/jpeg" →
          ∃ e, FixData.fix tzSecs
            (.fromFilename row.path (pathName row.path) (row.get "MIMEType")
              (if b then Tags.SubSecDateTimeOriginal else Tags.DateTimeOriginal) b dt)
          = .error e) := by
  subst hm
  obtain ⟨⟨cdiags, coordinate⟩, hcc⟩ := check_coordinate_never_raises row
  have hmem : ∃ err,
      CheckRes.withFix err
        (.fromFilename row.path (pathName row.path) (row.get "MIMEType")
          (if b then Tags.SubSecDateTimeOriginal else Tags.DateTimeOriginal) b dt)
        ∈ (check_media row row.mtime).yields := by
    simp only [check_media, bne_self_eq_false, Bool.false_eq_true, if_false, hcc, ho,
      Option.isNone_none, if_true, hf, fallback_datetime]
    cases hsup : supports_tz_offset (row.get "MIMEType")
    · simp only [hsup, Bool.false_eq_true, if_false]
      exact ⟨_, List.mem_append_right _ (List.mem_cons_self _ _)⟩
    · simp only [hsup, if_true]
      rcases htz : check_tz_offset row (row.get "MIMEType") row.path coordinate none
          with e | ⟨tzdiags, tzoff⟩
      · simp only [htz]
        exact ⟨_, List.mem_append_right _ (List.mem_cons_self _ _)⟩
      · simp only [htz]
        exact ⟨_, List.mem_append_left _ (List.mem_append_right _ (List.mem_cons_self _ _))⟩
  obtain ⟨err, hmem⟩ := hmem
  refine ⟨err, hmem, ?_, ?_⟩
  · intro hmime
    simp only [FixData.fix, hmime, beq_self_eq_true, if_true]
  · intro hmime
    have hne : (row.get "MIMEType" == some "image/jpeg") = false := by
      rw [beq_eq_false_iff_ne]
      exact hmime
    simp only [FixData.fix, hne, Bool.false_eq_true, if_false]
    exact ⟨_, rfl⟩

/-- C2's witness: the claim's own scenario — IMG_20200101_123456.jpg with no
datetime tags: the filename step returns 2020-01-01T12:34:56 with the
sub-second flag off, and the fallback proposes DateTimeOriginal. -/
theorem missing_datetime_fallback_fix_witness :
    check_filename_datetime "/photos/IMG_20200101_123456.jpg"
      = ([], some (⟨2020, 1, 1, 12, 34, 56, 0⟩, false))
    ∧ ∃ err,
      CheckRes.withFix err
        (.fromFilename "/photos/IMG_20200101_123456.jpg" "IMG_20200101_123456.jpg"
          none Tags.DateTimeOriginal false ⟨2020, 1, 1, 12, 34, 56, 0⟩)
        ∈ (check_media ⟨"/photos/IMG_20200101_123456.jpg", "mt", [], []⟩ "mt").yields
      ∧ ((Row.get ⟨"/photos/IMG_20200101_123456.jpg", "mt", [], []⟩ "MIMEType")
            = some "image/jpeg" →
          FixData.fix (fun _ _ => 0)
            (.fromFilename "/photos/IMG_20200101_123456.jpg" "IMG_20200101_123456.jpg"
              none Tags.DateTimeOriginal false ⟨2020, 1, 1, 12, 34, 56, 0⟩)
          = exiftool_set_tag "/photos/IMG_20200101_123456.jpg" Tags.DateTimeOriginal
              (strftime_fix false ⟨2020, 1, 1, 12, 34, 56, 0⟩)
              ("inferred " ++ Tags.DateTimeOriginal ++ " from the filename "
                ++ "IMG_20200101_123456.jpg"))
      ∧ (¬ (Row.get ⟨"/photos/IMG_20200101_123456.jpg", "mt", [], []⟩ "MIMEType")
            = some "image/jpeg" →
          ∃ e, FixData.fix (fun _ _ => 0)
            (.fromFilename "/photos/IMG_20200101_123456.jpg" "IMG_20200101_123456.jpg"
              none Tags.DateTimeOriginal false ⟨2020, 1, 1, 12, 34, 56, 0⟩)
          = .error e) :=
  ⟨by decide,
    missing_datetime_fallback_fix ⟨"/photos/IMG_20200101_123456.jpg", "mt", [], []⟩ "mt"
      (fun _ _ => 0) ⟨2020, 1, 1, 12, 34, 56, 0⟩ false [] rfl (by decide) (by decide)⟩

/-- C9: the sub-second flag is set exactly when group 2's digits (underscore
removed) number nine — which happens not only for a literal 9-digit time
block but also for the 6-digit block with an `_`-separated 3-digit tail, so
IMG_20200101_123456_789.jpg gets the flag and its fallback Fix targets
SubSecDateTimeOriginal. -/
theorem subsec_flag_rule :
    (∀ name ds g2, matchFilename name = some (ds, g2) →
        (stripUnderscores g2).length = 6 ∨ (stripUnderscores g2).length = 9)
    ∧ (∀ path fdiags dt b, check_filename_datetime path = (fdiags, some (dt, b)) →
        ∃ ds g2, matchFilename (stripName (pathName path)) = some (ds, g2)
          ∧ b = ((stripUnderscores g2).length == 9))
    ∧ check_filename_datetime "/photos/IMG_20200101_123456_789.jpg"
        = ([], some (⟨2020, 1, 1, 12, 34, 56, 789000⟩, true))
    ∧ fallback_datetime ⟨"/photos/IMG_20200101_123456_789.jpg", "m", [], []⟩ none
        "/photos/IMG_20200101_123456_789.jpg" "IMG_20200101_123456_789.jpg"
        (some (⟨2020, 1, 1, 12, 34, 56, 789000⟩, true))
      = [.withFix ("missing created datetime. Has filename timestamp "
            ++ "2020-01-01 12:34:56.789000, use --fix to set it")
          (.fromFilename "/photos/IMG_20200101_123456_789.jpg"
            "IMG_20200101_123456_789.jpg" none Tags.SubSecDateTimeOriginal true
            ⟨2020, 1, 1, 12, 34, 56, 789000⟩)] := by
  refine ⟨?_, ?_, by decide, by decide⟩
  · intro name ds g2 h
    obtain ⟨rest, hr⟩ := matchFilename_g2 name ds g2 h
    exact matchGroup2_len rest g2 hr
  · intro path fdiags dt b h
    simp only [check_filename_datetime] at h
    rcases hm : matchFilename (stripName (pathName path)) with _ | ⟨ds, g2⟩
    · rw [hm] at h
      simp at h
    · rw [hm] at h
      dsimp only at h
      split at h
      · simp at h
      · injection h with h1 h2
        injection h2 with h2
        injection h2 with h3 h4
        exact ⟨ds, g2, rfl, h4.symm⟩

/-- C9's witness: the general rule applied to the concrete 6+3 filename. -/
theorem subsec_flag_rule_witness :
    matchFilename "IMG_20200101_123456_789" = some ("20200101", "123456_789")
    ∧ ((stripUnderscores "123456_789").length = 6
        ∨ (stripUnderscores "123456_789").length = 9) :=
  ⟨by decide, subsec_flag_rule.1 "IMG_20200101_123456_789" "20200101" "123456_789" (by decide)⟩

/-- C7 (counter-evidence): with a fresh mtime and any secondary timezone-like
tag present (here exif OffsetTime while OffsetTimeOriginal is absent),
check_media raises while generating diagnostics: the source reads
Tags.OffsetTime, an attribute tags.py never defines, so consuming the stream
dies with AttributeError instead of surfacing a diagnostic. -/
theorem tz_candidate_tag_raises :
    (check_media ⟨"/photos/x.jpg", "M", [("OffsetTime", "+01:00")], []⟩ "M").outcome
      = .error "AttributeError: type object Tags has no attribute OffsetTime" := rfl

end Exifdb
